import Mathlib

/-!
# Tool Invocation Subsystem — verification development

Shallow embedding of the Tool Invocation Subsystem of `src/src-tauri/src/lib.rs`:
tool discovery (`check_tool_availability`, `find_tool_in_path`), environment
shaping (the PATH extension and `AZURE_CONFIG_DIR` blocks of
`run_azure_resource_finder` and `check_azure_auth_status`), the one-shot
process runner (`run_azure_resource_finder`), the REPL output filter
(`run_ruchy_repl`), and the auth-failure classifier inside
`check_azure_auth_status`.

Strings are Lean `String`s (lists of characters); all string operations the
Rust code uses (`contains`, `starts_with`, `trim`, `lines`, `replace`, `join`)
are given explicit executable definitions below so every theorem can be
checked on concrete inputs by the kernel. External effects (the filesystem
existence check, the `which`/`where` subprocess, the spawned tool's captured
output, the host process environment) enter as explicit parameters or as an
explicit `World` state; the functions themselves are direct translations of
the Rust.
-/

namespace TauriTools

/-! ## String primitives (embeddings of the Rust `str` operations used) -/

/-- `pat` occurs contiguously in `l`: embedding of Rust `str::contains` with a
string pattern, on the character lists. -/
def infixOfB (pat : List Char) : List Char → Bool
  | [] => pat.isEmpty
  | c :: cs => pat.isPrefixOf (c :: cs) || infixOfB pat cs

/-- Rust `str::contains(pat)`. -/
def strContains (s pat : String) : Bool :=
  infixOfB pat.data s.data

/-- Rust `str::starts_with(pat)`. -/
def strStartsWith (s pat : String) : Bool :=
  pat.data.isPrefixOf s.data

/-- Rust `str::is_empty`. -/
def strIsEmpty (s : String) : Bool :=
  s.data.isEmpty

/-- Leading and trailing whitespace removed: Rust `str::trim` (the inputs here
are ASCII, where Rust's and Lean's whitespace predicates agree). -/
def trimChars (l : List Char) : List Char :=
  ((l.dropWhile Char.isWhitespace).reverse.dropWhile Char.isWhitespace).reverse

/-- Rust `str::trim`. -/
def strTrim (s : String) : String :=
  ⟨trimChars s.data⟩

/-- Split at every `'\n'`; the separators are consumed. -/
def splitNLAux : List Char → List Char → List (List Char)
  | [], acc => [acc.reverse]
  | c :: cs, acc =>
    if c = '\n' then acc.reverse :: splitNLAux cs [] else splitNLAux cs (c :: acc)

/-- A trailing `'\r'` removed (Rust `lines` yields lines without their
`"\r\n"` or `"\n"` terminators). -/
def stripCR (l : List Char) : List Char :=
  if l.getLast? = some '\r' then l.dropLast else l

/-- Rust `str::lines`: split-terminator on `'\n'` (so a final newline yields no
trailing empty line, and an empty string yields no lines), each line stripped
of a trailing `'\r'`. -/
def rustLines (s : String) : List String :=
  let segs := splitNLAux s.data []
  let segs := if segs.getLast? = some [] then segs.dropLast else segs
  segs.map (fun l => ⟨stripCR l⟩)

/-- Rust `[String]::join("\n")`. -/
def joinWithNL : List String → String
  | [] => ""
  | [s] => s
  | s :: s' :: rest => s ++ "\n" ++ joinWithNL (s' :: rest)

/-- One pass of Rust `str::replace(pat, rep)`: scan left to right, replace each
non-overlapping occurrence of `pat`, continue after the replacement. `fuel`
bounds the recursion; one unit is consumed per step and every step consumes at
least one character, so `l.length` fuel is always enough. -/
def replaceAllAux (pat rep : List Char) : Nat → List Char → List Char
  | 0, l => l
  | _ + 1, [] => []
  | fuel + 1, c :: cs =>
    if pat.isPrefixOf (c :: cs) && !pat.isEmpty then
      rep ++ replaceAllAux pat rep fuel ((c :: cs).drop pat.length)
    else
      c :: replaceAllAux pat rep fuel cs

/-- Rust `str::replace(pat, rep)` (every non-overlapping occurrence replaced;
the call sites in this code base always pass a non-empty pattern). -/
def strReplaceAll (s pat rep : String) : String :=
  ⟨replaceAllAux pat.data rep.data s.data.length s.data⟩

/-! ## Data model -/

/-- `CommandOutput` of the source (the spec's `ExecutionResult`). -/
structure CommandOutput where
  stdout : String
  stderr : String
  success : Bool
  deriving Repr, DecidableEq

/-- `ToolInfo` of the source (the spec's `ToolResolution`). -/
structure ToolInfo where
  name : String
  available : Bool
  path : Option String
  error : Option String
  deriving Repr, DecidableEq

/-- The raw capture of one finished subprocess: decoded stdout and stderr texts
and whether the exit status was success. This is what
`std::process::Output` contributes after the `from_utf8_lossy` decoding. -/
structure RawOutput where
  stdout : String
  stderr : String
  statusSuccess : Bool
  deriving Repr, DecidableEq

/-! ## Path Resolver

`find_tool_in_path` runs the platform search utility (`where` on Windows,
`which` elsewhere) as a subprocess. That subprocess run is external: it enters
as a `spawnResult` parameter (`Except.error e` when the utility itself could
not be spawned, otherwise its captured output). -/

/-- `find_tool_in_path` of the source: parse the first non-empty line of the
search utility's stdout as the found path. -/
def find_tool_in_path (spawnResult : Except String RawOutput)
    (searchUtilityName : String) : Except String (Option String) :=
  match spawnResult with
  | .error e => .error ("Failed to execute " ++ searchUtilityName ++ ": " ++ e)
  | .ok out =>
    if out.statusSuccess then
      let path := strTrim out.stdout
      if !strIsEmpty path then
        let firstPath := strTrim ((rustLines path).headD "")
        if !strIsEmpty firstPath then .ok (some firstPath) else .ok none
      else .ok none
    else .ok none

/-- The source's `check_tool_at_path` turned into the for-loop of
`check_tool_availability`: first candidate path the filesystem says exists,
scanning in list order. `fs` is the external filesystem existence check. -/
def firstExistingPath (fs : String → Bool) : List String → Option String
  | [] => none
  | p :: rest => if fs p then some p else firstExistingPath fs rest

/-! ## Tool Registry (`check_tool_availability`) -/

/-- Static candidate install locations for `azure-resource-finder`. -/
def azureFinderCandidatePaths : List String :=
  ["/usr/local/bin/azure-resource-finder",
   "/opt/homebrew/bin/azure-resource-finder",
   "C:\\Program Files\\azure-resource-finder\\azure-resource-finder.exe",
   "C:\\azure-resource-finder\\azure-resource-finder.exe"]

/-- Static candidate install locations for `ruchy`. -/
def ruchyCandidatePaths : List String :=
  ["/Users/denistu/.cargo/bin/ruchy",
   "/usr/local/bin/ruchy",
   "/opt/homebrew/bin/ruchy",
   "C:\\Users\\%USERNAME%\\.cargo\\bin\\ruchy.exe",
   "C:\\cargo\\bin\\ruchy.exe"]

/-- Static candidate install locations for the Azure CLI. -/
def azCandidatePaths : List String :=
  ["/usr/local/bin/az",
   "/opt/homebrew/bin/az",
   "C:\\Program Files (x86)\\Microsoft SDKs\\Azure\\CLI2\\wbin\\az.cmd",
   "C:\\Program Files\\Microsoft SDKs\\Azure\\CLI2\\wbin\\az.cmd"]

/-- Install guidance for a missing `azure-resource-finder`. -/
def azureFinderGuidance : String :=
  "Azure Resource Finder not found. Please install it or configure the path in settings."

/-- Install guidance for a missing `ruchy`. -/
def ruchyGuidance : String :=
  "Ruchy not found. Please install it with 'cargo install ruchy' or configure the path in settings."

/-- Install guidance for a missing Azure CLI. -/
def azGuidance : String :=
  "Azure CLI not found. Please install it from https://docs.microsoft.com/en-us/cli/azure/install-azure-cli"

/-- `check_tool_availability` of the source. `fs` is the filesystem existence
check behind `check_tool_at_path`; `search` is `find_tool_in_path` applied to
a name (kept abstract here because its subprocess is external). The Rust
`match tool.as_str()` is the same equality chain written as `if`s. -/
def check_tool_availability (fs : String → Bool)
    (search : String → Except String (Option String)) (tool : String) :
    Except String ToolInfo :=
  if tool = "azure-resource-finder" then
    match firstExistingPath fs azureFinderCandidatePaths with
    | some p => .ok { name := tool, available := true, path := some p, error := none }
    | none =>
      match search "azure-resource-finder" with
      | .ok (some p) => .ok { name := tool, available := true, path := some p, error := none }
      | .ok none => .ok { name := tool, available := false, path := none, error := some azureFinderGuidance }
      | .error e => .ok { name := tool, available := false, path := none,
                          error := some ("Failed to search for azure-resource-finder: " ++ e) }
  else if tool = "ruchy" then
    match firstExistingPath fs ruchyCandidatePaths with
    | some p => .ok { name := tool, available := true, path := some p, error := none }
    | none =>
      match search "ruchy" with
      | .ok (some p) => .ok { name := tool, available := true, path := some p, error := none }
      | .ok none => .ok { name := tool, available := false, path := none, error := some ruchyGuidance }
      | .error e => .ok { name := tool, available := false, path := none,
                          error := some ("Failed to search for ruchy: " ++ e) }
  else if tool = "az" then
    match firstExistingPath fs azCandidatePaths with
    | some p => .ok { name := tool, available := true, path := some p, error := none }
    | none =>
      match search "az" with
      | .ok (some p) => .ok { name := tool, available := true, path := some p, error := none }
      | .ok none => .ok { name := tool, available := false, path := none, error := some azGuidance }
      | .error e => .ok { name := tool, available := false, path := none,
                          error := some ("Failed to search for az: " ++ e) }
  else
    .ok { name := tool, available := false, path := none,
          error := some ("Unknown tool: " ++ tool) }

/-- A registered tool as the spec describes it: id, search name, static
candidate paths, guidance text for the not-found case. -/
structure ToolDescriptor where
  id : String
  searchName : String
  candidatePaths : List String
  guidance : String
  deriving Repr, DecidableEq

/-- The three registered tools of the source. -/
def registry : List ToolDescriptor :=
  [{ id := "azure-resource-finder", searchName := "azure-resource-finder",
     candidatePaths := azureFinderCandidatePaths, guidance := azureFinderGuidance },
   { id := "ruchy", searchName := "ruchy",
     candidatePaths := ruchyCandidatePaths, guidance := ruchyGuidance },
   { id := "az", searchName := "az",
     candidatePaths := azCandidatePaths, guidance := azGuidance }]

/-- The spec's discovery contract (§4.2), written from its words: scan the
static candidate list and return the first existing path; otherwise search the
PATH by the tool's search name; otherwise an unavailable resolution carrying
the tool's guidance text (a failed search carries the search failure text). -/
def discoverSpec (fs : String → Bool)
    (search : String → Except String (Option String)) (t : ToolDescriptor) : ToolInfo :=
  match t.candidatePaths.find? fs with
  | some p => { name := t.id, available := true, path := some p, error := none }
  | none =>
    match search t.searchName with
    | .ok (some p) => { name := t.id, available := true, path := some p, error := none }
    | .ok none => { name := t.id, available := false, path := none, error := some t.guidance }
    | .error e => { name := t.id, available := false, path := none,
                    error := some ("Failed to search for " ++ t.searchName ++ ": " ++ e) }

/-! ## Environment Builder

The host process environment is explicit state: `World` is what
`std::env::vars` / `std::env::var` read and what `std::env::set_var` would
write. Each env-shaping block is translated as a state-passing function
returning the locally built mapping together with the (possibly updated)
world, so that "the host environment is never written" is a provable fact
about the translation rather than an assumption. -/

/-- The host process's environment variables. -/
structure World where
  env : String → Option String

/-- `std::env::vars().collect::<HashMap<_,_>>()`: read the whole environment. -/
def getEnvVars (w : World) : (String → Option String) × World :=
  (w.env, w)

/-- `std::env::var(k)`. -/
def getEnvVar (k : String) (w : World) : Option String × World :=
  (w.env k, w)

/-- `std::env::set_var(k, v)` — available in the embedding, never used by the
translated code. -/
def setEnvVar (k v : String) (w : World) : Unit × World :=
  ((), { env := fun k' => if k' = k then some v else w.env k' })

/-- `HashMap::insert` on the locally cloned mapping. -/
def insertVar (m : String → Option String) (k v : String) : String → Option String :=
  fun k' => if k' = k then some v else m k'

/-- `"USERPROFILE"` on Windows, `"HOME"` elsewhere (the `cfg!` choice). -/
def homeVarName (windows : Bool) : String :=
  if windows then "USERPROFILE" else "HOME"

/-- The well-known bin directories appended to PATH on each platform. -/
def wellKnownDirs (windows : Bool) : List String :=
  if windows then
    ["C:\\Program Files (x86)\\Microsoft SDKs\\Azure\\CLI2\\wbin",
     "C:\\Program Files\\Microsoft SDKs\\Azure\\CLI2\\wbin"]
  else
    ["/opt/homebrew/bin", "/opt/homebrew/sbin", "/usr/local/bin", "/usr/local/sbin"]

/-- The platform PATH separator pushed between entries. -/
def pathSeparator (windows : Bool) : String :=
  if windows then ";" else ":"

/-- One iteration of the PATH-extension loop: if the directory is not already
substring-present in the accumulated value, append it (with a separator when
the value is non-empty). -/
def addPathDir (sep : String) (acc d : String) : String :=
  if strContains acc d then acc
  else if strIsEmpty acc then d
  else acc ++ sep ++ d

/-- The whole PATH-extension loop over the platform's well-known directories. -/
def extendPath (windows : Bool) (p : String) : String :=
  (wellKnownDirs windows).foldl (addPathDir (pathSeparator windows)) p

/-- The environment shaping of `run_azure_resource_finder` (source lines
185–231): clone the environment, extend PATH, set `AZURE_CONFIG_DIR` to
`{home}/.azure`, then set it again only when that directory exists on disk
(`fs` is the filesystem existence check). -/
def buildFinderEnv (windows : Bool) (fs : String → Bool) (w : World) :
    (String → Option String) × World :=
  let (vars, w1) := getEnvVars w
  let env := vars
  let currentPath := (env "PATH").getD ""
  let newPath := extendPath windows currentPath
  let env := insertVar env "PATH" newPath
  let (home1, w2) := getEnvVar (homeVarName windows) w1
  let env :=
    match home1 with
    | some home => insertVar env "AZURE_CONFIG_DIR" (home ++ "/.azure")
    | none => env
  let (home2, w3) := getEnvVar (homeVarName windows) w2
  let env :=
    match home2 with
    | some home =>
      if fs (home ++ "/.azure") then insertVar env "AZURE_CONFIG_DIR" (home ++ "/.azure")
      else env
    | none => env
  (env, w3)

/-- The environment shaping of `check_azure_auth_status` (source lines
356–392): clone, extend PATH, set `AZURE_CONFIG_DIR` once. -/
def buildAuthEnv (windows : Bool) (w : World) : (String → Option String) × World :=
  let (vars, w1) := getEnvVars w
  let env := vars
  let currentPath := (env "PATH").getD ""
  let newPath := extendPath windows currentPath
  let env := insertVar env "PATH" newPath
  let (home1, w2) := getEnvVar (homeVarName windows) w1
  let env :=
    match home1 with
    | some home => insertVar env "AZURE_CONFIG_DIR" (home ++ "/.azure")
    | none => env
  (env, w2)

/-! ## Process Runner (`run_azure_resource_finder`) -/

/-- The augmented stderr text produced when a failed run's stderr carries an
Azure credential failure marker. -/
def azureAuthFailureMessage (stderrText : String) : String :=
  "Azure authentication failed. Please ensure you are logged in with 'az login' and have the necessary permissions.\n\nError details:\n"
    ++ stderrText

/-- The result shaping of `run_azure_resource_finder` after a successful
launch (source lines 239–258): a failed exit whose stderr mentions
`DefaultAzureCredential` or `failed to acquire a token` gets the auth-failure
message prepended to stderr; every other outcome is passed through with
`success` mirroring the exit status. -/
def processFinderOutput (out : RawOutput) : CommandOutput :=
  if !out.statusSuccess
      && (strContains out.stderr "DefaultAzureCredential"
          || strContains out.stderr "failed to acquire a token") then
    { stdout := out.stdout, stderr := azureAuthFailureMessage out.stderr, success := false }
  else
    { stdout := out.stdout, stderr := out.stderr, success := out.statusSuccess }

/-- `run_azure_resource_finder` of the source, after tool discovery:
`toolInfo` is the value `check_tool_availability` returned and `spawnResult`
the outcome of launching the resolved executable (`Except.error e` when it
could not be launched at all). -/
def run_azure_resource_finder (toolInfo : ToolInfo)
    (spawnResult : Except String RawOutput) : Except String CommandOutput :=
  if !toolInfo.available then
    .error (toolInfo.error.getD "Azure Resource Finder not available")
  else
    match spawnResult with
    | .error e => .error ("Failed to execute azure-resource-finder: " ++ e)
    | .ok out => .ok (processFinderOutput out)

/-! ## REPL Session Driver (`run_ruchy_repl`) -/

/-- The return sentinel: Ruchy prints a successful completion value as an
`Error: return:` line. -/
def returnSentinel : String := "Error: return:"

/-- The banner/prompt noise test of the filter loop (a line is dropped when
this holds): welcome banner, help hint, goodbye message, prompt lines, and
blank lines. -/
def isReplNoiseLine (line : String) : Bool :=
  strContains line "Welcome to Ruchy REPL" || strContains line "Type :help"
    || strContains line "Goodbye!" || strStartsWith line "ruchy>"
    || strIsEmpty (strTrim line)

/-- The per-line rewrite of the filter loop: a line beginning with the return
sentinel becomes `line.replace("Error: return:", "").trim()`; any other line
(error or not) is pushed verbatim. -/
def processReplLine (line : String) : String :=
  if strStartsWith line returnSentinel then
    strTrim (strReplaceAll line returnSentinel "")
  else if strStartsWith line "Error:" then
    line
  else
    line

/-- The filter loop as the source runs it: walk the lines pushing processed
non-noise lines onto an accumulator (the Rust `Vec::push`). -/
def filterReplAux : List String → List String → List String
  | [], acc => acc.reverse
  | line :: rest, acc =>
    if !isReplNoiseLine line then filterReplAux rest (processReplLine line :: acc)
    else filterReplAux rest acc

/-- The same filter as a direct recursion (used to state properties of the
filtered text). -/
def filterReplLines : List String → List String
  | [] => []
  | line :: rest =>
    if !isReplNoiseLine line then processReplLine line :: filterReplLines rest
    else filterReplLines rest

/-- The joined, trimmed filtered output of a combined raw text. -/
def cleanReplOutput (combined : String) : String :=
  strTrim (joinWithNL (filterReplLines (rustLines combined)))

/-- One REPL exchange's output handling (source lines 297–337): concatenate
raw stdout and stderr, split into lines, filter, join with newlines, trim;
`success` is true unless the clean text starts with `"Error:"`, except that a
raw *stderr* containing the return sentinel forces success; `stderr` of the
result is empty on success and the raw stderr text otherwise. -/
def ruchyExchange (stdoutRaw stderrRaw : String) : CommandOutput :=
  let combined := stdoutRaw ++ stderrRaw
  let lines := rustLines combined
  let filteredOutput := filterReplAux lines []
  let cleanOutput := strTrim (joinWithNL filteredOutput)
  let isSuccess := !strStartsWith cleanOutput "Error:" || strContains stderrRaw returnSentinel
  { stdout := cleanOutput,
    stderr := if isSuccess then "" else stderrRaw,
    success := isSuccess }

/-- `run_ruchy_repl` of the source, after tool discovery: `toolInfo` is the
value `check_tool_availability` returned for `"ruchy"` and `spawnResult` the
captured output of the spawned `ruchy repl` subprocess after the statement and
`:quit` were written to its stdin. -/
def run_ruchy_repl (toolInfo : ToolInfo) (spawnResult : Except String RawOutput) :
    Except String CommandOutput :=
  if !toolInfo.available then
    .error (toolInfo.error.getD "Ruchy not available")
  else
    match spawnResult with
    | .error e => .error ("Failed to spawn ruchy: " ++ e)
    | .ok out => .ok (ruchyExchange out.stdout out.stderr)

/-! ## Output Classifier (`check_azure_auth_status`, error_details chain) -/

/-- The auth-failure classifier of `check_azure_auth_status` (source lines
424–436), run on the captured stderr and stdout of a failed
`az account show`. -/
def classify_auth_failure (stderrText stdoutText : String) : String :=
  if strContains stderrText "Please run 'az login'" then
    "User not authenticated. Please run 'az login' in your terminal."
  else if strContains stderrText "No subscriptions found" then
    "Authenticated but no subscriptions found. Please check your Azure account."
  else if strContains stderrText "DefaultAzureCredential" then
    "Authentication failed. Please ensure you are logged in with 'az login'."
  else if !strIsEmpty stderrText then
    "Authentication error: " ++ stderrText
  else if !strIsEmpty stdoutText then
    "Unexpected output during authentication check."
  else
    "Unknown authentication error."

/-- The classifier's marker table: stderr substring markers in match order with
their diagnoses (not-logged-in, no-subscriptions, credential-chain-failure). -/
def authFailurePatterns : List (String × String) :=
  [("Please run 'az login'", "User not authenticated. Please run 'az login' in your terminal."),
   ("No subscriptions found", "Authenticated but no subscriptions found. Please check your Azure account."),
   ("DefaultAzureCredential", "Authentication failed. Please ensure you are logged in with 'az login'.")]

/-- The classifier contract written as a data-driven ordered match: first
marker found in stderr wins; with no marker, a non-empty stderr yields the
generic `Authentication error:` text, else a non-empty stdout the
unexpected-output diagnosis, else the unknown-error diagnosis. -/
def classifyAuthSpec (stderrText stdoutText : String) : String :=
  match authFailurePatterns.find? (fun pr => strContains stderrText pr.1) with
  | some pr => pr.2
  | none =>
    if !strIsEmpty stderrText then "Authentication error: " ++ stderrText
    else if !strIsEmpty stdoutText then "Unexpected output during authentication check."
    else "Unknown authentication error."

/-! ## Helper lemmas: substring containment -/

theorem infixOfB_iff {pat l : List Char} : infixOfB pat l = true ↔ pat <:+: l := by
  induction l with
  | nil => simp [infixOfB, List.isEmpty_iff, List.infix_nil]
  | cons c cs ih =>
    simp only [infixOfB, Bool.or_eq_true, List.infix_cons_iff, ih,
      List.isPrefixOf_iff_prefix]

theorem strContains_iff {s pat : String} : strContains s pat = true ↔ pat.data <:+: s.data := by
  simp [strContains, infixOfB_iff]

theorem strContains_append_left {a pat : String} (b : String)
    (h : strContains a pat = true) : strContains (a ++ b) pat = true := by
  rw [strContains_iff] at h ⊢
  rw [String.data_append]
  exact h.trans (List.prefix_append a.data b.data).isInfix

theorem strContains_append_right {b pat : String} (a : String)
    (h : strContains b pat = true) : strContains (a ++ b) pat = true := by
  rw [strContains_iff] at h ⊢
  rw [String.data_append]
  exact h.trans (List.suffix_append a.data b.data).isInfix

theorem strContains_self (s : String) : strContains s s = true := by
  rw [strContains_iff]

/-! ## Helper lemmas: the PATH-extension fold -/

theorem strContains_addPathDir_mono {acc d : String} (sep d' : String)
    (h : strContains acc d = true) : strContains (addPathDir sep acc d') d = true := by
  unfold addPathDir
  split
  next => exact h
  next =>
    split
    next hemp =>
      have hnil : acc.data = [] := by simpa [strIsEmpty, List.isEmpty_iff] using hemp
      have hI := strContains_iff.mp h
      rw [hnil] at hI
      have h0 := List.infix_nil.mp hI
      rw [strContains_iff, h0]
      exact List.nil_infix
    next => exact strContains_append_left d' (strContains_append_left sep h)

theorem strContains_addPathDir_self (sep acc d : String) :
    strContains (addPathDir sep acc d) d = true := by
  unfold addPathDir
  split
  next h => exact h
  next =>
    split
    next => exact strContains_self d
    next => exact strContains_append_right (acc ++ sep) (strContains_self d)

theorem foldl_addPathDir_mono {p d : String} (sep : String) (dirs : List String)
    (h : strContains p d = true) :
    strContains (dirs.foldl (addPathDir sep) p) d = true := by
  induction dirs generalizing p with
  | nil => exact h
  | cons d' rest ih => exact ih (strContains_addPathDir_mono sep d' h)

theorem foldl_addPathDir_mem {d : String} (sep : String) {dirs : List String} (p : String)
    (h : d ∈ dirs) :
    strContains (dirs.foldl (addPathDir sep) p) d = true := by
  induction dirs generalizing p with
  | nil => cases h
  | cons d' rest ih =>
    rw [List.foldl_cons]
    rcases List.mem_cons.mp h with rfl | hmem
    · exact foldl_addPathDir_mono sep rest (strContains_addPathDir_self sep p d)
    · exact ih (addPathDir sep p d') hmem

theorem foldl_addPathDir_fixed {p : String} (sep : String) {dirs : List String}
    (h : ∀ d ∈ dirs, strContains p d = true) :
    dirs.foldl (addPathDir sep) p = p := by
  induction dirs with
  | nil => rfl
  | cons d' rest ih =>
    have hd : addPathDir sep p d' = p := by
      unfold addPathDir
      rw [if_pos (h d' (List.mem_cons_self d' rest))]
    rw [List.foldl_cons, hd]
    exact ih fun d hd => h d (List.mem_cons_of_mem d' hd)

/-! ## Helper lemmas: replace, lines, filter -/

theorem strStartsWith_append (pat rest : String) : strStartsWith (pat ++ rest) pat = true := by
  unfold strStartsWith
  rw [String.data_append, List.isPrefixOf_iff_prefix]
  exact List.prefix_append _ _

theorem replaceAllAux_not_occurring {pat : List Char} (rep : List Char) :
    ∀ (fuel : Nat) (l : List Char), infixOfB pat l = false → l.length ≤ fuel →
      replaceAllAux pat rep fuel l = l := by
  intro fuel
  induction fuel with
  | zero => intro l _ _; rfl
  | succ n ih =>
    intro l hinf hlen
    cases l with
    | nil => rfl
    | cons c cs =>
      have hsplit : pat.isPrefixOf (c :: cs) = false ∧ infixOfB pat cs = false := by
        have := hinf
        unfold infixOfB at this
        exact ⟨by cases hp : pat.isPrefixOf (c :: cs) <;> simp [hp] at this ⊢,
               by cases hp : infixOfB pat cs <;> simp [hp] at this ⊢⟩
      unfold replaceAllAux
      rw [hsplit.1]
      simp only [Bool.false_and, if_neg (by simp : ¬(false = true))]
      rw [ih cs hsplit.2 (by simp only [List.length_cons] at hlen; omega)]

theorem replaceAllAux_leading_pat {pat : List Char} (rep rest : List Char)
    (hne : pat ≠ []) (fuel : Nat) :
    replaceAllAux pat rep (fuel + 1) (pat ++ rest) = rep ++ replaceAllAux pat rep fuel rest := by
  cases pat with
  | nil => exact absurd rfl hne
  | cons c cs =>
    show replaceAllAux (c :: cs) rep (fuel + 1) (c :: (cs ++ rest)) = _
    have hpre : (c :: cs).isPrefixOf (c :: (cs ++ rest)) = true := by
      rw [List.isPrefixOf_iff_prefix]
      exact List.prefix_append (c :: cs) rest
    have hdrop : (c :: (cs ++ rest)).drop (c :: cs).length = rest := by
      rw [List.length_cons, List.drop_succ_cons]
      exact List.drop_left cs rest
    conv_lhs => rw [replaceAllAux]
    rw [hpre, hdrop]
    simp

theorem strReplaceAll_leading_pat {pat rest : String} (hne : pat.data ≠ [])
    (h : strContains rest pat = false) :
    strReplaceAll (pat ++ rest) pat "" = rest := by
  unfold strReplaceAll
  have hdata : (pat ++ rest).data = pat.data ++ rest.data := String.data_append pat rest
  have hpos : 0 < pat.data.length := List.length_pos.mpr hne
  have hlen : (pat.data ++ rest.data).length = (pat.data.length - 1 + rest.data.length) + 1 := by
    rw [List.length_append]; omega
  rw [hdata, hlen, replaceAllAux_leading_pat _ _ hne]
  rw [replaceAllAux_not_occurring _ _ _ (by simpa [strContains] using h) (by omega)]
  rfl

theorem filterReplAux_eq (l acc : List String) :
    filterReplAux l acc = acc.reverse ++ filterReplLines l := by
  induction l generalizing acc with
  | nil => simp [filterReplAux, filterReplLines]
  | cons line rest ih =>
    rw [filterReplAux, filterReplLines]
    cases h : isReplNoiseLine line
    · simp only [Bool.not_false, if_pos rfl]
      rw [ih]
      simp
    · simp only [Bool.not_true, if_neg (by simp : ¬(false = true))]
      exact ih acc

theorem strLength_append_pos (a b : String) (h : 0 < a.length) : 0 < (a ++ b).length := by
  have hab : (a ++ b).length = a.length + b.length := by
    show (a ++ b).data.length = a.data.length + b.data.length
    rw [String.data_append, List.length_append]
  omega

theorem firstExistingPath_eq_find (fs : String → Bool) (l : List String) :
    firstExistingPath fs l = l.find? fs := by
  induction l with
  | nil => rfl
  | cons p rest ih =>
    cases h : fs p <;> simp [firstExistingPath, List.find?_cons, h, ih]

/-! ## C1 — the REPL success flag -/

/-- C1 (counterexample): the success decision does not depend only on the
filtered joined text. The same raw text `"Error: fail\nError: return: 5\n"`
filters to the same stdout (which begins with the genuine, unrewritten error
line `"Error: fail"`) whether it arrived on stdout or on stderr, yet
`succeeded` is `true` when it arrived on stderr (the raw stderr contains the
return sentinel) and `false` when it arrived on stdout. -/
theorem repl_success_stream_dependence_cex :
    (ruchyExchange "" "Error: fail\nError: return: 5\n").success = true
      ∧ (ruchyExchange "Error: fail\nError: return: 5\n" "").success = false
      ∧ (ruchyExchange "" "Error: fail\nError: return: 5\n").stdout
          = (ruchyExchange "Error: fail\nError: return: 5\n" "").stdout
      ∧ strStartsWith (ruchyExchange "" "Error: fail\nError: return: 5\n").stdout "Error:"
          = true := by
  decide

/-- C1 (amended): `succeeded` is true exactly when the joined, filtered output
text does not begin with `"Error:"` OR the raw stderr text contains the
substring `"Error: return:"` — so the decision also consults the raw stderr
stream, not only the filtered joined text. -/
theorem repl_success_flag_formula (stdoutRaw stderrRaw : String) :
    (ruchyExchange stdoutRaw stderrRaw).success
      = (!strStartsWith (cleanReplOutput (stdoutRaw ++ stderrRaw)) "Error:"
          || strContains stderrRaw returnSentinel) := by
  simp only [ruchyExchange, cleanReplOutput, filterReplAux_eq, List.reverse_nil,
    List.nil_append]

/-! ## C2 — the return-sentinel rewrite -/

/-- C2 (counterexample): the rewrite is `line.replace("Error: return:", "")`
followed by `trim`, which deletes every occurrence of the sentinel, not only
the leading one. On the line `"Error: return: a Error: return: b"` the code
produces `"a  b"`, while the line's trailing value (the text after the leading
sentinel, trimmed) is `"a Error: return: b"`. -/
theorem repl_sentinel_rewrite_cex :
    processReplLine "Error: return: a Error: return: b" = "a  b"
      ∧ strTrim " a Error: return: b" = "a Error: return: b"
      ∧ ("a  b" : String) ≠ "a Error: return: b" := by
  decide

/-- C2 (amended): a line beginning with the sentinel is rewritten by deleting
every occurrence of `"Error: return:"` and trimming; when the sentinel occurs
only as the leading prefix (the common case) this is exactly the trimmed
trailing value. Any other line beginning with `"Error:"` is kept verbatim.
The raw line `"Error: return: 42"` yields filtered stdout `"42"` with
`succeeded = true`; the raw line `"Error: division by zero"` appears verbatim
with `succeeded = false`. -/
theorem repl_sentinel_rewrite_rules :
    (∀ rest : String, strContains rest returnSentinel = false →
        processReplLine (returnSentinel ++ rest) = strTrim rest)
      ∧ (∀ line : String, strStartsWith line "Error:" = true →
          strStartsWith line returnSentinel = false → processReplLine line = line)
      ∧ ruchyExchange "Error: return: 42\n" ""
          = { stdout := "42", stderr := "", success := true }
      ∧ ruchyExchange "Error: division by zero\n" ""
          = { stdout := "Error: division by zero", stderr := "", success := false } := by
  refine ⟨?_, ?_, by decide, by decide⟩
  · intro rest h
    unfold processReplLine
    rw [strStartsWith_append returnSentinel rest, if_pos rfl]
    rw [strReplaceAll_leading_pat (by decide) h]
  · intro line h1 h2
    unfold processReplLine
    rw [h2, h1]
    rw [if_neg (by simp : ¬(false = true)), if_pos rfl]

/-! ## C3 — unknown tool_id -/

/-- C3 (counterexample): for the unregistered tool id `"cowsay"` the discovery
does not fail with an error value — it returns a successful `Except.ok`
carrying a `ToolInfo` whose `error` field holds the unknown-tool text. -/
theorem unknown_tool_ok_cex :
    check_tool_availability (fun _ => false) (fun _ => .ok none) "cowsay"
      = .ok { name := "cowsay", available := false, path := none,
              error := some "Unknown tool: cowsay" }
      ∧ ¬∃ msg : String,
          check_tool_availability (fun _ => false) (fun _ => .ok none) "cowsay"
            = .error msg := by
  constructor
  · rfl
  · rintro ⟨msg, hmsg⟩
    have hok : check_tool_availability (fun _ => false) (fun _ => .ok none) "cowsay"
        = .ok { name := "cowsay", available := false, path := none,
                error := some "Unknown tool: cowsay" } := rfl
    rw [hok] at hmsg
    exact Except.noConfusion hmsg

/-- C3 (amended): for every tool id not among the registered tools, discovery
returns `Except.ok` with a resolution `{available := false, path := none,
error := some ("Unknown tool: " ++ id)}` — the unknown-tool error is surfaced
in the resolution's `error` field, never as an `Except.error` and never as an
available resolution. -/
theorem unknown_tool_resolution (fs : String → Bool)
    (search : String → Except String (Option String)) (tool : String)
    (h1 : tool ≠ "azure-resource-finder") (h2 : tool ≠ "ruchy") (h3 : tool ≠ "az") :
    check_tool_availability fs search tool
      = .ok { name := tool, available := false, path := none,
              error := some ("Unknown tool: " ++ tool) } := by
  unfold check_tool_availability
  rw [if_neg h1, if_neg h2, if_neg h3]

/-- C3 (witness): the amended theorem applied to the concrete unknown tool id
`"kubectl"`. -/
theorem unknown_tool_resolution_witness :
    check_tool_availability (fun _ => false) (fun _ => .ok none) "kubectl"
      = .ok { name := "kubectl", available := false, path := none,
              error := some ("Unknown tool: " ++ "kubectl") } :=
  unknown_tool_resolution _ _ _ (by decide) (by decide) (by decide)

/-! ## C4 — PATH extension properties -/

/-- C4: on both platforms and for every base PATH value, the built PATH
contains every well-known bin directory at least once (as a substring, which
is the presence test the builder itself uses); the builder is idempotent
(applying it to its own output changes nothing); and it never appends a
directory already present (a base in which every well-known directory is
already present is returned unchanged). -/
theorem env_builder_path_properties (windows : Bool) (p : String) :
    ((wellKnownDirs windows).all (fun d => strContains (extendPath windows p) d) = true)
      ∧ extendPath windows (extendPath windows p) = extendPath windows p
      ∧ ((wellKnownDirs windows).all (fun d => strContains p d) = false
          ∨ extendPath windows p = p) := by
  refine ⟨?_, ?_, ?_⟩
  · rw [List.all_eq_true]
    intro d hd
    exact foldl_addPathDir_mem (pathSeparator windows) p hd
  · exact foldl_addPathDir_fixed (pathSeparator windows)
      fun d hd => foldl_addPathDir_mem (pathSeparator windows) p hd
  · cases h : (wellKnownDirs windows).all (fun d => strContains p d) with
    | false => exact Or.inl rfl
    | true =>
      exact Or.inr (foldl_addPathDir_fixed (pathSeparator windows)
        fun d hd => List.all_eq_true.mp h d hd)

/-! ## C5 — non-zero exit is data, not an error -/

/-- C5: when the resolved tool launches and exits with non-zero status,
`run_azure_resource_finder` returns a normal `Except.ok` result with
`success = false` whose stderr carries the captured stderr (verbatim, or with
the auth-failure guidance prepended); an `Except.error` arises only from a
failed launch. -/
theorem runner_nonzero_exit_not_error (ti : ToolInfo) (out : RawOutput) (e : String)
    (hav : ti.available = true) (hexit : out.statusSuccess = false) :
    run_azure_resource_finder ti (.ok out) = .ok (processFinderOutput out)
      ∧ (processFinderOutput out).success = false
      ∧ ((processFinderOutput out).stderr = out.stderr
          ∨ (processFinderOutput out).stderr = azureAuthFailureMessage out.stderr)
      ∧ run_azure_resource_finder ti (.error e)
          = .error ("Failed to execute azure-resource-finder: " ++ e) := by
  refine ⟨?_, ?_, ?_, ?_⟩
  · unfold run_azure_resource_finder
    rw [hav]
    rfl
  · unfold processFinderOutput
    split
    · rfl
    · exact hexit
  · unfold processFinderOutput
    split
    · exact Or.inr rfl
    · exact Or.inl rfl
  · unfold run_azure_resource_finder
    rw [hav]
    rfl

/-- C5 (witness): the theorem applied to an available tool and a run that
exited non-zero with stderr `"boom"`. -/
theorem runner_nonzero_exit_not_error_witness :
    (processFinderOutput { stdout := "", stderr := "boom", statusSuccess := false }).success
      = false :=
  (runner_nonzero_exit_not_error
      { name := "azure-resource-finder", available := true,
        path := some "/usr/local/bin/azure-resource-finder", error := none }
      { stdout := "", stderr := "boom", statusSuccess := false }
      "No such file or directory" rfl rfl).2.1

/-! ## C6 — discovery order, first match wins -/

/-- C6: for every registered tool, `check_tool_availability` computes exactly
the spec's ordered discovery: first existing static candidate path wins,
otherwise the PATH search by the tool's search name, otherwise an unavailable
resolution with the tool's guidance text. -/
theorem discovery_first_match_order (fs : String → Bool)
    (search : String → Except String (Option String)) (t : ToolDescriptor)
    (ht : t ∈ registry) :
    check_tool_availability fs search t.id = .ok (discoverSpec fs search t) := by
  fin_cases ht
  · unfold check_tool_availability discoverSpec
    rw [if_pos rfl, firstExistingPath_eq_find]
    dsimp only
    cases List.find? fs azureFinderCandidatePaths with
    | some p => rfl
    | none =>
      cases search "azure-resource-finder" with
      | ok o => cases o <;> rfl
      | error e => rfl
  · unfold check_tool_availability discoverSpec
    rw [if_neg (by decide), if_pos rfl, firstExistingPath_eq_find]
    dsimp only
    cases List.find? fs ruchyCandidatePaths with
    | some p => rfl
    | none =>
      cases search "ruchy" with
      | ok o => cases o <;> rfl
      | error e => rfl
  · unfold check_tool_availability discoverSpec
    rw [if_neg (by decide), if_neg (by decide), if_pos rfl, firstExistingPath_eq_find]
    dsimp only
    cases List.find? fs azCandidatePaths with
    | some p => rfl
    | none =>
      cases search "az" with
      | ok o => cases o <;> rfl
      | error e => rfl

/-- C6 (witness): the theorem applied to the registered `ruchy` descriptor
with a filesystem on which no candidate exists and a search that finds
nothing. -/
theorem discovery_first_match_order_witness :
    check_tool_availability (fun _ => false) (fun _ => .ok none) "ruchy"
      = .ok (discoverSpec (fun _ => false) (fun _ => .ok none)
          { id := "ruchy", searchName := "ruchy",
            candidatePaths := ruchyCandidatePaths, guidance := ruchyGuidance }) :=
  discovery_first_match_order (fun _ => false) (fun _ => .ok none)
    { id := "ruchy", searchName := "ruchy",
      candidatePaths := ruchyCandidatePaths, guidance := ruchyGuidance }
    (by decide)

/-! ## C7 — the auth-failure classifier -/

/-- C7 (counterexample): with stderr `"boom"` (non-empty, matching no marker)
and stdout `"junk"` (non-empty), the classifier does not fall back to the
unexpected-output diagnosis — it produces the generic
`"Authentication error: <stderr>"` text, a fallback the claim omits. -/
theorem auth_classifier_fallback_cex :
    classify_auth_failure "boom" "junk" = "Authentication error: boom"
      ∧ classify_auth_failure "boom" "junk"
          ≠ "Unexpected output during authentication check." := by
  decide

/-- C7 (amended): the classifier matches the stderr markers in order
(not-logged-in, then no-subscriptions, then credential-chain-failure), first
match wins; when no marker matches, a non-empty stderr yields
`"Authentication error: <stderr>"`, otherwise a non-empty stdout yields the
unexpected-output diagnosis, otherwise the unknown-error diagnosis. In
particular a stderr containing `"Please run 'az login'"` yields exactly the
not-authenticated text, and empty stderr with empty stdout yields
`"Unknown authentication error."`. -/
theorem auth_classifier_spec :
    (∀ stderrText stdoutText : String,
        classify_auth_failure stderrText stdoutText
          = classifyAuthSpec stderrText stdoutText)
      ∧ (∀ stderrText stdoutText : String,
          strContains stderrText "Please run 'az login'" = true →
            classify_auth_failure stderrText stdoutText
              = "User not authenticated. Please run 'az login' in your terminal.")
      ∧ classify_auth_failure "" "" = "Unknown authentication error." := by
  refine ⟨?_, ?_, rfl⟩
  · intro e o
    cases h1 : strContains e "Please run 'az login'" <;>
    cases h2 : strContains e "No subscriptions found" <;>
    cases h3 : strContains e "DefaultAzureCredential" <;>
      simp [classify_auth_failure, classifyAuthSpec, authFailurePatterns,
        List.find?_cons, h1, h2, h3]
  · intro e o h
    unfold classify_auth_failure
    rw [h, if_pos rfl]

/-! ## C8 — no mutation of the host environment -/

/-- C8: both environment builders leave the host process environment (`World`)
unchanged — they only read it — and the locally built mapping agrees with the
host environment everywhere except at the two keys they extend, `PATH` and
`AZURE_CONFIG_DIR`. -/
theorem env_builder_no_host_mutation (windows : Bool) (fs : String → Bool)
    (w : World) (k : String) :
    (buildFinderEnv windows fs w).2 = w
      ∧ (buildAuthEnv windows w).2 = w
      ∧ (k = "PATH" ∨ k = "AZURE_CONFIG_DIR"
          ∨ ((buildFinderEnv windows fs w).1 k = w.env k
              ∧ (buildAuthEnv windows w).1 k = w.env k)) := by
  refine ⟨?_, ?_, ?_⟩
  · unfold buildFinderEnv getEnvVars getEnvVar
    cases w.env (homeVarName windows) <;> simp
  · unfold buildAuthEnv getEnvVars getEnvVar
    cases w.env (homeVarName windows) <;> simp
  · by_cases hk1 : k = "PATH"
    · exact Or.inl hk1
    · by_cases hk2 : k = "AZURE_CONFIG_DIR"
      · exact Or.inr (Or.inl hk2)
      · refine Or.inr (Or.inr ⟨?_, ?_⟩)
        · unfold buildFinderEnv getEnvVars getEnvVar insertVar
          dsimp only
          cases hh : w.env (homeVarName windows) with
          | none => simp [hk1, hk2]
          | some home =>
            by_cases hfs : fs (home ++ "/.azure") = true <;> simp [hfs, hk1, hk2]
        · unfold buildAuthEnv getEnvVars getEnvVar insertVar
          dsimp only
          cases hh : w.env (homeVarName windows) <;> simp [hk1, hk2]

/-! ## C9 — the discovery result invariant -/

/-- C9: for every tool id (registered or not), every filesystem and every
search behavior (including a search that fails to spawn),
`check_tool_availability` returns `Except.ok` with a `ToolInfo` in which
`available = true` comes with a path, and `available = false` comes with a
non-empty guidance string in `error`. -/
theorem tool_availability_invariant (fs : String → Bool)
    (search : String → Except String (Option String)) (tool : String) :
    ∃ ti : ToolInfo, check_tool_availability fs search tool = .ok ti
      ∧ ((ti.available = true ∧ ti.path.isSome = true)
          ∨ (ti.available = false
              ∧ ∃ msg : String, ti.error = some msg ∧ 0 < msg.length)) := by
  unfold check_tool_availability
  split
  · cases hf : firstExistingPath fs azureFinderCandidatePaths with
    | some p => exact ⟨_, rfl, Or.inl ⟨rfl, rfl⟩⟩
    | none =>
      cases hs : search "azure-resource-finder" with
      | ok o =>
        cases o with
        | some p => exact ⟨_, rfl, Or.inl ⟨rfl, rfl⟩⟩
        | none => exact ⟨_, rfl, Or.inr ⟨rfl, azureFinderGuidance, rfl, by decide⟩⟩
      | error e =>
        exact ⟨_, rfl, Or.inr ⟨rfl, _, rfl,
          strLength_append_pos "Failed to search for azure-resource-finder: " e (by decide)⟩⟩
  · split
    · cases hf : firstExistingPath fs ruchyCandidatePaths with
      | some p => exact ⟨_, rfl, Or.inl ⟨rfl, rfl⟩⟩
      | none =>
        cases hs : search "ruchy" with
        | ok o =>
          cases o with
          | some p => exact ⟨_, rfl, Or.inl ⟨rfl, rfl⟩⟩
          | none => exact ⟨_, rfl, Or.inr ⟨rfl, ruchyGuidance, rfl, by decide⟩⟩
        | error e =>
          exact ⟨_, rfl, Or.inr ⟨rfl, _, rfl,
            strLength_append_pos "Failed to search for ruchy: " e (by decide)⟩⟩
    · split
      · cases hf : firstExistingPath fs azCandidatePaths with
        | some p => exact ⟨_, rfl, Or.inl ⟨rfl, rfl⟩⟩
        | none =>
          cases hs : search "az" with
          | ok o =>
            cases o with
            | some p => exact ⟨_, rfl, Or.inl ⟨rfl, rfl⟩⟩
            | none => exact ⟨_, rfl, Or.inr ⟨rfl, azGuidance, rfl, by decide⟩⟩
          | error e =>
            exact ⟨_, rfl, Or.inr ⟨rfl, _, rfl,
              strLength_append_pos "Failed to search for az: " e (by decide)⟩⟩
      · exact ⟨_, rfl, Or.inr ⟨rfl, _, rfl,
          strLength_append_pos "Unknown tool: " tool (by decide)⟩⟩

/-! ## C10 — success implies empty stderr -/

/-- C10: the REPL exchange's `stderr` field is empty exactly on success, and
carries the raw captured stderr text exactly when `success = false`. -/
theorem repl_success_stderr_empty (stdoutRaw stderrRaw : String) :
    (ruchyExchange stdoutRaw stderrRaw).stderr
      = (if (ruchyExchange stdoutRaw stderrRaw).success = true then "" else stderrRaw) :=
  rfl

end TauriTools
